import Mathlib

/-
Verification of the per-connection conversational turn pipeline of `app-ch.py`
(a Flask-SocketIO voice-conversation backend).

The embedding models the `audio_data` socket handler (`handle_audio_data`,
src/app-ch.py lines 93-175) as a pure function from the turn's environment
(the inbound payload, the behaviour of the external gateways on this turn, and
the wall-clock timestamps the handler samples) together with the shared state
(session store, metrics log) to the turn's outcome (the list of emitted socket
events, the updated store and log, and the handler-local `latency_info` dict as
it stands when the handler returns).

External gateway calls (`base64.b64decode`, `elevenlabs ... speech_to_text`,
`get_llm_response`) are modelled as `Except`-valued fields of the environment:
`.error e` models the call raising an exception with message `e`.  Wall-clock
times are exact rationals (seconds); Python's `round(x, 2)` and `int(x)` are
modelled by `round2` and `pytrunc`.  The session registry lives in
`utils/booking_state.py`, which is not part of the sources; it is modelled
from the spec (see `Session`, `get_or_create_session`, `Session.add_to_history`).
Writing one line to `stats.jsonl` is modelled as appending one record to the
log; `emit` is modelled by collecting events in order.  `handle_audio_data`
treats the `stats.jsonl` write as total; `handle_audio_data_io` refines it
with a fallible write, exposing the uncaught-exception path at line 163 that
runs after the history append at line 148 — the two coincide whenever the
write succeeds (`handle_audio_data_io_total`).
-/

namespace AppCh

/-- Outbound socket events the server can emit.  `botResponse` carries the two
text fields always present in the payload and the optional
`latency_ms.backend` integer (the empty-speech response at line 131 of
`app-ch.py` omits `latency_ms`, hence the `Option`). -/
inductive Event where
  | status (message : String)
  | botResponse (user_text : String) (bot_text : String) (backend : Option Int)
  | error (message : String)
  deriving DecidableEq, Repr

/-- Modelled from the spec: the per-connection Session of `utils/booking_state`
(not in the sources).  Per spec §3 it carries the connection id and the
append-only ordered `history` of (user_utterance, assistant_reply) pairs;
the task-specific booking slots play no role in the claims and are elided. -/
structure Session where
  id : String
  history : List (String × String)
  deriving DecidableEq, Repr

/-- The process-wide session registry, an association list keyed by the
connection id. -/
abbrev SessionStore := List (String × Session)

/-- Look up the Session registered for a connection id. -/
def lookupSession (sid : String) : SessionStore → Option Session
  | [] => none
  | (k, s) :: rest => if k = sid then some s else lookupSession sid rest

/-- Modelled from the spec: `get_or_create_session(connection_id)` of
`utils/booking_state` (spec §4.2) returns the existing Session for the id if
present, otherwise creates, registers and returns an empty Session. -/
def get_or_create_session (sid : String) (store : SessionStore) :
    Session × SessionStore :=
  match lookupSession sid store with
  | some s => (s, store)
  | none => (⟨sid, []⟩, store ++ [(sid, ⟨sid, []⟩)])

/-- Modelled from the spec: `session.add_to_history(user, reply)` appends one
(user_utterance, assistant_reply) pair to the Session's history (spec §3). -/
def Session.add_to_history (s : Session) (user reply : String) : Session :=
  { s with history := s.history ++ [(user, reply)] }

/-- Write back the (Python-side mutable) Session under its id.  In Python the
store aliases the Session object, so `add_to_history` is visible in the store;
in the pure model the updated Session is written back explicitly. -/
def updateSession (sid : String) (s : Session) : SessionStore → SessionStore
  | [] => []
  | (k, t) :: rest =>
      if k = sid then (k, s) :: rest else (k, t) :: updateSession sid s rest

/-- The handler-local `latency_info` dict (app-ch.py lines 98-104), fields in
milliseconds. -/
structure LatencyInfo where
  audio_conversion : ℚ
  vad_validation : ℚ
  silence_trimming : ℚ
  asr_transcription : ℚ
  llm_response : ℚ
  deriving DecidableEq, Repr

/-- The initial `latency_info` (every stage zero, lines 98-104). -/
def initLatencyInfo : LatencyInfo := ⟨0, 0, 0, 0, 0⟩

/-- One line of `stats.jsonl` (app-ch.py lines 154-162). -/
structure LatencyRecord where
  total : ℚ
  conversion : ℚ
  vad : ℚ
  trim : ℚ
  asr : ℚ
  llm : ℚ
  timestamp : String
  deriving DecidableEq, Repr

/-- Python's `round(x, 2)`: round to two decimal places (nearest, exact halves
go up in the model; the counterexamples below avoid exact halves so the
half-rule never matters). -/
def round2 (q : ℚ) : ℚ := (round (q * 100) : ℚ) / 100

/-- Python's `int(x)`: truncation toward zero. -/
def pytrunc (q : ℚ) : Int := if 0 ≤ q then ⌊q⌋ else ⌈q⌉

/-- Python's notion of whitespace for `str.strip()` restricted to ASCII. -/
def pyIsSpace (c : Char) : Bool :=
  c == ' ' || c == '\t' || c == '\n' || c == '\x0b' || c == '\x0c' || c == '\r'

/-- The test `not transcription or transcription.strip() == ""` at line 130:
true exactly when the transcript is empty or consists of whitespace only. -/
def isBlankTranscript (s : String) : Bool := s.toList.all pyIsSpace

/-- The environment of one `audio_data` turn: the payload's `audio` field
(`none` models an absent key), the behaviour of the external calls on this
turn, and the six wall-clock samples the handler takes, in seconds:
`t0` = `start_time` (line 96), `t1` = `asr_start` (line 113), `t2` = the
`time.time()` of line 126, `t3` = `llm_start` (line 135), `t4` = the
`time.time()` of line 146, `t5` = the `time.time()` of line 151. -/
structure TurnEnv where
  sid : String
  audio : Option String
  b64decode : String → Except String (List Nat)
  transcribe : List Nat → Except String String
  build_booking_system_prompt : Session → String
  get_llm_response : String → String → Except String String
  t0 : ℚ
  t1 : ℚ
  t2 : ℚ
  t3 : ℚ
  t4 : ℚ
  t5 : ℚ
  timestamp : String

/-- The observable outcome of one `audio_data` turn: the events emitted (in
order), the session store and metrics log after the turn, and the final value
of the handler-local `latency_info`. -/
structure TurnOutcome where
  events : List Event
  store : SessionStore
  log : List LatencyRecord
  latency_info : LatencyInfo
  deriving DecidableEq, Repr

/-- Lines 134-171 of `app-ch.py`: the tail of the handler once a non-blank
transcript is in hand — fetch/create the session, build the prompt, call the
LLM (substituting the fixed fallback on any exception, lines 144-145), append
to history, write one `stats.jsonl` record, emit the `bot_response`. -/
def completed_turn (env : TurnEnv) (store : SessionStore)
    (log : List LatencyRecord) (transcription : String) : TurnOutcome :=
  let sc := get_or_create_session env.sid store
  let prompt := env.build_booking_system_prompt sc.1
  let llm_response :=
    match env.get_llm_response transcription prompt with
    | .ok r => r
    | .error _ => "系统繁忙。"
  let li : LatencyInfo := ⟨0, 0, 0, (env.t2 - env.t1) * 1000, (env.t4 - env.t3) * 1000⟩
  let session1 := sc.1.add_to_history transcription llm_response
  let store2 := updateSession env.sid session1 sc.2
  let total_latency := (env.t5 - env.t0) * 1000
  let record : LatencyRecord :=
    ⟨round2 total_latency, 0, 0, 0, round2 ((env.t2 - env.t1) * 1000),
     round2 ((env.t4 - env.t3) * 1000), env.timestamp⟩
  ⟨[Event.botResponse transcription llm_response (some (pytrunc total_latency))],
   store2, log ++ [record], li⟩

/-- The `audio_data` handler (app-ch.py lines 93-175).  The outer
`try/except` is modelled by the `.error` branches of the gateway calls: an
exception raised at decode or transcription reaches line 175 and emits a
single `error` event.  The in-memory steps after transcription (session
bookkeeping, the metrics append, `emit`) are modelled as total. -/
def handle_audio_data (env : TurnEnv) (store : SessionStore)
    (log : List LatencyRecord) : TurnOutcome :=
  match env.audio with
  | none => ⟨[], store, log, initLatencyInfo⟩
  | some audio_base64 =>
    if audio_base64 = "" then ⟨[], store, log, initLatencyInfo⟩
    else
      match env.b64decode audio_base64 with
      | .error e => ⟨[Event.error e], store, log, initLatencyInfo⟩
      | .ok audio_bytes =>
        match env.transcribe audio_bytes with
        | .error e => ⟨[Event.error e], store, log, initLatencyInfo⟩
        | .ok transcription =>
          if isBlankTranscript transcription then
            ⟨[Event.botResponse "..." "（听不清）" none], store, log,
             ⟨0, 0, 0, (env.t2 - env.t1) * 1000, 0⟩⟩
          else
            completed_turn env store log transcription

/-- Lines 134-171 of `app-ch.py` with the metrics write modelled as fallible:
the `open`/`write` of `stats.jsonl` at lines 163-164 sits inside the outer
`try`, so an exception there (disk full, permissions) reaches line 173 and
emits an `error` event — after `session.add_to_history` at line 148 has
already mutated the Session, and before the `bot_response` emit at line 167.
`write_stats` models that write: `.error e` models it raising with message
`e`.  `completed_turn` is the special case of an infallible write (see
`handle_audio_data_io_total`). -/
def completed_turn_io (env : TurnEnv)
    (write_stats : LatencyRecord → Except String Unit) (store : SessionStore)
    (log : List LatencyRecord) (transcription : String) : TurnOutcome :=
  let sc := get_or_create_session env.sid store
  let prompt := env.build_booking_system_prompt sc.1
  let llm_response :=
    match env.get_llm_response transcription prompt with
    | .ok r => r
    | .error _ => "系统繁忙。"
  let li : LatencyInfo := ⟨0, 0, 0, (env.t2 - env.t1) * 1000, (env.t4 - env.t3) * 1000⟩
  let session1 := sc.1.add_to_history transcription llm_response
  let store2 := updateSession env.sid session1 sc.2
  let total_latency := (env.t5 - env.t0) * 1000
  let record : LatencyRecord :=
    ⟨round2 total_latency, 0, 0, 0, round2 ((env.t2 - env.t1) * 1000),
     round2 ((env.t4 - env.t3) * 1000), env.timestamp⟩
  match write_stats record with
  | .error e => ⟨[Event.error e], store2, log, li⟩
  | .ok _ =>
      ⟨[Event.botResponse transcription llm_response (some (pytrunc total_latency))],
       store2, log ++ [record], li⟩

/-- The `audio_data` handler with the metrics write fallible: identical to
`handle_audio_data` except that the completed-turn tail goes through
`completed_turn_io`, exposing the uncaught-exception path at the `stats.jsonl`
write that `handle_audio_data` treats as total.  `handle_audio_data_io_total`
proves the two handlers coincide whenever the write succeeds. -/
def handle_audio_data_io (env : TurnEnv)
    (write_stats : LatencyRecord → Except String Unit) (store : SessionStore)
    (log : List LatencyRecord) : TurnOutcome :=
  match env.audio with
  | none => ⟨[], store, log, initLatencyInfo⟩
  | some audio_base64 =>
    if audio_base64 = "" then ⟨[], store, log, initLatencyInfo⟩
    else
      match env.b64decode audio_base64 with
      | .error e => ⟨[Event.error e], store, log, initLatencyInfo⟩
      | .ok audio_bytes =>
        match env.transcribe audio_bytes with
        | .error e => ⟨[Event.error e], store, log, initLatencyInfo⟩
        | .ok transcription =>
          if isBlankTranscript transcription then
            ⟨[Event.botResponse "..." "（听不清）" none], store, log,
             ⟨0, 0, 0, (env.t2 - env.t1) * 1000, 0⟩⟩
          else
            completed_turn_io env write_stats store log transcription

/-- The `disconnect` handler (app-ch.py lines 88-90): it only logs; the
session store is left untouched. -/
def handle_disconnect (_sid : String) (store : SessionStore) : SessionStore :=
  store

/-- The falsiness test `if not audio_base64` at line 107: the `audio` field is
absent or the empty string. -/
def audioFalsy (env : TurnEnv) : Bool :=
  match env.audio with
  | none => true
  | some a => a == ""

/-- An event is a `bot_response` or an `error` (not a `status`). -/
def isBotOrError : Event → Bool
  | .botResponse _ _ _ => true
  | .error _ => true
  | .status _ => false

/-- An event is an `error` event. -/
def isErrorEvent : Event → Bool
  | .error _ => true
  | _ => false

/- Concrete turn environments used to evaluate the model on closed inputs. -/

/-- A concrete environment for one ordinary turn: audio present, decoding and
transcription succeed ("你好"), generation succeeds ("好的"); transcription
takes 10 ms, generation 10 ms, the whole turn 30 ms. -/
def envBase : TurnEnv where
  sid := "c1"
  audio := some "QQ=="
  b64decode := fun _ => Except.ok [65]
  transcribe := fun _ => Except.ok "你好"
  build_booking_system_prompt := fun _ => "预约提示"
  get_llm_response := fun _ _ => Except.ok "好的"
  t0 := 0
  t1 := 0
  t2 := 1 / 100
  t3 := 1 / 100
  t4 := 1 / 50
  t5 := 3 / 100
  timestamp := "2026-01-01 00:00:00"

/-- Like `envBase` but generation succeeds with the empty reply and the turn is
very fast: transcription and generation each take 0.006 ms and nothing else
takes any time, so every stored metrics field rounds to 0.01. -/
def envEmptyReply : TurnEnv :=
  { envBase with
    get_llm_response := fun _ _ => Except.ok ""
    t2 := 3 / 500000
    t3 := 3 / 500000
    t4 := 3 / 250000
    t5 := 3 / 250000 }

/-- Like `envBase` but the transcription gateway raises after 5 ms. -/
def envGatewayDown : TurnEnv :=
  { envBase with
    transcribe := fun _ => Except.error "gateway down"
    t2 := 1 / 200 }

/-- Like `envBase` but the transcription result is the empty string. -/
def envSilence : TurnEnv :=
  { envBase with transcribe := fun _ => Except.ok "" }

/-- Like `envBase` but the payload has no `audio` field. -/
def envNoAudio : TurnEnv := { envBase with audio := none }

/-- Like `envBase` but the generation gateway raises. -/
def envGenFails : TurnEnv :=
  { envBase with get_llm_response := fun _ _ => Except.error "timeout" }

/-- Like `envBase` but base64 decoding raises. -/
def envDecodeFails : TurnEnv :=
  { envBase with b64decode := fun _ => Except.error "Invalid base64-encoded string" }

/-- A second turn on the same connection as `envBase`: transcript "再见",
reply "再见！". -/
def envTurn2 : TurnEnv :=
  { envBase with
    transcribe := fun _ => Except.ok "再见"
    get_llm_response := fun _ _ => Except.ok "再见！" }

/-- A session with one completed exchange, used to exercise `handle_disconnect`. -/
def sessionOne : Session := ⟨"c1", [("你好", "好的")]⟩

/-- A metrics writer for which the `stats.jsonl` append succeeds. -/
def statsWriterOk : LatencyRecord → Except String Unit := fun _ => Except.ok ()

/-- A metrics writer for which the `stats.jsonl` append raises. -/
def statsWriterFails : LatencyRecord → Except String Unit :=
  fun _ => Except.error "No space left on device"

/- Path lemmas: the handler's behaviour on each control-flow path. -/

theorem handle_audio_of_none (env : TurnEnv) (store : SessionStore)
    (log : List LatencyRecord) (ha : env.audio = none) :
    handle_audio_data env store log = ⟨[], store, log, initLatencyInfo⟩ := by
  simp [handle_audio_data, ha]

theorem handle_audio_of_empty (env : TurnEnv) (store : SessionStore)
    (log : List LatencyRecord) (ha : env.audio = some "") :
    handle_audio_data env store log = ⟨[], store, log, initLatencyInfo⟩ := by
  simp [handle_audio_data, ha]

theorem handle_audio_of_decode_error (env : TurnEnv) (store : SessionStore)
    (log : List LatencyRecord) (a e : String) (ha : env.audio = some a)
    (hne : a ≠ "") (hd : env.b64decode a = .error e) :
    handle_audio_data env store log = ⟨[Event.error e], store, log, initLatencyInfo⟩ := by
  simp [handle_audio_data, ha, hne, hd]

theorem handle_audio_of_transcribe_error (env : TurnEnv) (store : SessionStore)
    (log : List LatencyRecord) (a e : String) (bs : List Nat)
    (ha : env.audio = some a) (hne : a ≠ "")
    (hd : env.b64decode a = .ok bs) (ht : env.transcribe bs = .error e) :
    handle_audio_data env store log = ⟨[Event.error e], store, log, initLatencyInfo⟩ := by
  simp [handle_audio_data, ha, hne, hd, ht]

theorem handle_audio_of_blank (env : TurnEnv) (store : SessionStore)
    (log : List LatencyRecord) (a t : String) (bs : List Nat)
    (ha : env.audio = some a) (hne : a ≠ "")
    (hd : env.b64decode a = .ok bs) (ht : env.transcribe bs = .ok t)
    (hb : isBlankTranscript t = true) :
    handle_audio_data env store log =
      ⟨[Event.botResponse "..." "（听不清）" none], store, log,
       ⟨0, 0, 0, (env.t2 - env.t1) * 1000, 0⟩⟩ := by
  simp [handle_audio_data, ha, hne, hd, ht, hb]

theorem handle_audio_of_nonblank (env : TurnEnv) (store : SessionStore)
    (log : List LatencyRecord) (a t : String) (bs : List Nat)
    (ha : env.audio = some a) (hne : a ≠ "")
    (hd : env.b64decode a = .ok bs) (ht : env.transcribe bs = .ok t)
    (hb : isBlankTranscript t = false) :
    handle_audio_data env store log = completed_turn env store log t := by
  simp [handle_audio_data, ha, hne, hd, ht, hb]

theorem completed_turn_of_gen_ok (env : TurnEnv) (store : SessionStore)
    (log : List LatencyRecord) (t r : String)
    (hr : env.get_llm_response t
        (env.build_booking_system_prompt (get_or_create_session env.sid store).1) = .ok r) :
    completed_turn env store log t =
      ⟨[Event.botResponse t r (some (pytrunc ((env.t5 - env.t0) * 1000)))],
       updateSession env.sid
         ((get_or_create_session env.sid store).1.add_to_history t r)
         (get_or_create_session env.sid store).2,
       log ++ [⟨round2 ((env.t5 - env.t0) * 1000), 0, 0, 0,
                round2 ((env.t2 - env.t1) * 1000),
                round2 ((env.t4 - env.t3) * 1000), env.timestamp⟩],
       ⟨0, 0, 0, (env.t2 - env.t1) * 1000, (env.t4 - env.t3) * 1000⟩⟩ := by
  simp [completed_turn, hr]

theorem completed_turn_of_gen_error (env : TurnEnv) (store : SessionStore)
    (log : List LatencyRecord) (t e : String)
    (hr : env.get_llm_response t
        (env.build_booking_system_prompt (get_or_create_session env.sid store).1) = .error e) :
    completed_turn env store log t =
      ⟨[Event.botResponse t "系统繁忙。" (some (pytrunc ((env.t5 - env.t0) * 1000)))],
       updateSession env.sid
         ((get_or_create_session env.sid store).1.add_to_history t "系统繁忙。")
         (get_or_create_session env.sid store).2,
       log ++ [⟨round2 ((env.t5 - env.t0) * 1000), 0, 0, 0,
                round2 ((env.t2 - env.t1) * 1000),
                round2 ((env.t4 - env.t3) * 1000), env.timestamp⟩],
       ⟨0, 0, 0, (env.t2 - env.t1) * 1000, (env.t4 - env.t3) * 1000⟩⟩ := by
  simp [completed_turn, hr]

/- Path lemmas for the fallible-write handler, and its agreement with
`handle_audio_data` when the write succeeds. -/

theorem handle_audio_io_of_decode_error (env : TurnEnv)
    (ws : LatencyRecord → Except String Unit) (store : SessionStore)
    (log : List LatencyRecord) (a e : String) (ha : env.audio = some a)
    (hne : a ≠ "") (hd : env.b64decode a = .error e) :
    handle_audio_data_io env ws store log
        = ⟨[Event.error e], store, log, initLatencyInfo⟩ := by
  simp [handle_audio_data_io, ha, hne, hd]

theorem handle_audio_io_of_transcribe_error (env : TurnEnv)
    (ws : LatencyRecord → Except String Unit) (store : SessionStore)
    (log : List LatencyRecord) (a e : String) (bs : List Nat)
    (ha : env.audio = some a) (hne : a ≠ "")
    (hd : env.b64decode a = .ok bs) (ht : env.transcribe bs = .error e) :
    handle_audio_data_io env ws store log
        = ⟨[Event.error e], store, log, initLatencyInfo⟩ := by
  simp [handle_audio_data_io, ha, hne, hd, ht]

theorem handle_audio_io_of_nonblank (env : TurnEnv)
    (ws : LatencyRecord → Except String Unit) (store : SessionStore)
    (log : List LatencyRecord) (a t : String) (bs : List Nat)
    (ha : env.audio = some a) (hne : a ≠ "")
    (hd : env.b64decode a = .ok bs) (ht : env.transcribe bs = .ok t)
    (hb : isBlankTranscript t = false) :
    handle_audio_data_io env ws store log = completed_turn_io env ws store log t := by
  simp [handle_audio_data_io, ha, hne, hd, ht, hb]

theorem completed_turn_io_of_write_error (env : TurnEnv)
    (ws : LatencyRecord → Except String Unit) (store : SessionStore)
    (log : List LatencyRecord) (t e : String)
    (hw : ∀ rec0, ws rec0 = Except.error e) :
    (completed_turn_io env ws store log t).events = [Event.error e] ∧
    (completed_turn_io env ws store log t).log = log := by
  simp [completed_turn_io, hw]

theorem handle_audio_data_io_total (env : TurnEnv) (store : SessionStore)
    (log : List LatencyRecord) :
    handle_audio_data_io env statsWriterOk store log = handle_audio_data env store log := by
  cases ha : env.audio with
  | none => simp [handle_audio_data_io, handle_audio_data, ha]
  | some a =>
      by_cases hne : a = ""
      · subst hne
        simp [handle_audio_data_io, handle_audio_data, ha]
      · cases hd : env.b64decode a with
        | error e =>
            rw [handle_audio_io_of_decode_error env statsWriterOk store log a e ha hne hd,
                handle_audio_of_decode_error env store log a e ha hne hd]
        | ok bs =>
            cases ht : env.transcribe bs with
            | error e =>
                rw [handle_audio_io_of_transcribe_error env statsWriterOk store log
                      a e bs ha hne hd ht,
                    handle_audio_of_transcribe_error env store log a e bs ha hne hd ht]
            | ok t =>
                by_cases hb : isBlankTranscript t
                · simp [handle_audio_data_io, handle_audio_data, ha, hne, hd, ht, hb]
                · rw [handle_audio_io_of_nonblank env statsWriterOk store log a t bs
                        ha hne hd ht (by simpa using hb),
                      handle_audio_of_nonblank env store log a t bs
                        ha hne hd ht (by simpa using hb)]
                  simp [completed_turn_io, completed_turn, statsWriterOk]

/- Store lemmas. -/

theorem lookup_append_self (sid : String) (s : Session) (store : SessionStore)
    (h : lookupSession sid store = none) :
    lookupSession sid (store ++ [(sid, s)]) = some s := by
  induction store with
  | nil => simp [lookupSession]
  | cons kv rest ih =>
      obtain ⟨k, t⟩ := kv
      by_cases hk : k = sid
      · simp [lookupSession, hk] at h
      · simp [lookupSession, hk] at h ⊢
        exact ih h

theorem update_append_self (sid : String) (s0 s1 : Session) (store : SessionStore)
    (h : lookupSession sid store = none) :
    updateSession sid s1 (store ++ [(sid, s0)]) = store ++ [(sid, s1)] := by
  induction store with
  | nil => simp [updateSession]
  | cons kv rest ih =>
      obtain ⟨k, t⟩ := kv
      by_cases hk : k = sid
      · simp [lookupSession, hk] at h
      · simp [lookupSession, hk] at h
        simp [updateSession, hk, ih h]

theorem lookup_update_of_some (sid : String) (s s0 : Session) (store : SessionStore)
    (h : lookupSession sid store = some s0) :
    lookupSession sid (updateSession sid s store) = some s := by
  induction store with
  | nil => simp [lookupSession] at h
  | cons kv rest ih =>
      obtain ⟨k, t⟩ := kv
      by_cases hk : k = sid
      · simp [updateSession, lookupSession, hk]
      · simp [lookupSession, hk] at h
        simp [updateSession, lookupSession, hk, ih h]

theorem lookup_update_get_or_create (sid : String) (s : Session) (store : SessionStore) :
    lookupSession sid (updateSession sid s (get_or_create_session sid store).2) = some s := by
  cases h : lookupSession sid store with
  | none =>
      rw [get_or_create_session, h]
      exact lookup_update_of_some sid s ⟨sid, []⟩ _ (lookup_append_self sid _ store h)
  | some s0 =>
      rw [get_or_create_session, h]
      exact lookup_update_of_some sid s s0 store h

/- Rounding lemmas for the metrics record. -/

theorem round2_nonneg (q : ℚ) (h : 0 ≤ q) : 0 ≤ round2 q := by
  unfold round2
  have h100 : (0 : ℚ) ≤ q * 100 := by positivity
  have : (0 : ℤ) ≤ round (q * 100) := by
    rw [round_eq]
    exact Int.floor_nonneg.mpr (by linarith)
  have : (0 : ℚ) ≤ (round (q * 100) : ℚ) := by exact_mod_cast this
  positivity

theorem round2_ge (q : ℚ) : q - 1 / 200 ≤ round2 q := by
  have h := abs_sub_round (q * 100)
  rw [abs_le] at h
  unfold round2
  have h2 : q * 100 - 1 / 2 ≤ (round (q * 100) : ℚ) := by linarith [h.2]
  linarith

theorem round2_le (q : ℚ) : round2 q ≤ q + 1 / 200 := by
  have h := abs_sub_round (q * 100)
  rw [abs_le] at h
  unfold round2
  have h2 : (round (q * 100) : ℚ) ≤ q * 100 + 1 / 2 := by linarith [h.1]
  linarith

/- Effect of a completed turn on the session store. -/

theorem completed_store_fresh (env : TurnEnv) (store : SessionStore)
    (log : List LatencyRecord) (a t r : String) (bs : List Nat)
    (hnone : lookupSession env.sid store = none)
    (ha : env.audio = some a) (hne : a ≠ "")
    (hd : env.b64decode a = .ok bs) (ht : env.transcribe bs = .ok t)
    (hb : isBlankTranscript t = false)
    (hr : ∀ p, env.get_llm_response t p = .ok r) :
    (handle_audio_data env store log).store
        = store ++ [(env.sid, ⟨env.sid, [(t, r)]⟩)] ∧
    (handle_audio_data env store log).events
        = [Event.botResponse t r (some (pytrunc ((env.t5 - env.t0) * 1000)))] := by
  rw [handle_audio_of_nonblank env store log a t bs ha hne hd ht hb,
      completed_turn_of_gen_ok env store log t r (hr _)]
  refine ⟨?_, rfl⟩
  show updateSession env.sid
      ((get_or_create_session env.sid store).1.add_to_history t r)
      (get_or_create_session env.sid store).2 = _
  have hgoc : get_or_create_session env.sid store
      = (⟨env.sid, []⟩, store ++ [(env.sid, ⟨env.sid, []⟩)]) := by
    simp [get_or_create_session, hnone]
  rw [hgoc]
  simpa [Session.add_to_history] using
    update_append_self env.sid ⟨env.sid, []⟩ ⟨env.sid, [(t, r)]⟩ store hnone

theorem completed_store_existing (env : TurnEnv) (store0 : SessionStore)
    (s0 : Session) (log : List LatencyRecord) (a t r : String) (bs : List Nat)
    (hnone : lookupSession env.sid store0 = none)
    (ha : env.audio = some a) (hne : a ≠ "")
    (hd : env.b64decode a = .ok bs) (ht : env.transcribe bs = .ok t)
    (hb : isBlankTranscript t = false)
    (hr : ∀ p, env.get_llm_response t p = .ok r) :
    (handle_audio_data env (store0 ++ [(env.sid, s0)]) log).store
        = store0 ++ [(env.sid, s0.add_to_history t r)] := by
  rw [handle_audio_of_nonblank env (store0 ++ [(env.sid, s0)]) log a t bs ha hne hd ht hb,
      completed_turn_of_gen_ok env (store0 ++ [(env.sid, s0)]) log t r (hr _)]
  show updateSession env.sid
      ((get_or_create_session env.sid (store0 ++ [(env.sid, s0)])).1.add_to_history t r)
      (get_or_create_session env.sid (store0 ++ [(env.sid, s0)])).2 = _
  have hgoc : get_or_create_session env.sid (store0 ++ [(env.sid, s0)])
      = (s0, store0 ++ [(env.sid, s0)]) := by
    simp [get_or_create_session, lookup_append_self env.sid s0 store0 hnone]
  rw [hgoc]
  exact update_append_self env.sid s0 (s0.add_to_history t r) store0 hnone

/-- Claim C1: for every inbound `audio_data` event the handler emits exactly
one outbound event — a `bot_response` or an `error` — except when the
payload's `audio` field is absent or empty, in which case no outbound event at
all is emitted. -/
theorem C1_one_event_per_audio (env : TurnEnv) (store : SessionStore)
    (log : List LatencyRecord) :
    (handle_audio_data env store log).events.length
        = (if audioFalsy env then 0 else 1) ∧
    (handle_audio_data env store log).events.all isBotOrError = true := by
  cases ha : env.audio with
  | none => simp [handle_audio_of_none env store log ha, audioFalsy, ha]
  | some a =>
      by_cases hne : a = ""
      · subst hne
        simp [handle_audio_of_empty env store log ha, audioFalsy, ha]
      · have hfalsy : audioFalsy env = false := by simp [audioFalsy, ha, hne]
        rw [hfalsy]
        cases hd : env.b64decode a with
        | error e =>
            simp [handle_audio_of_decode_error env store log a e ha hne hd, isBotOrError]
        | ok bs =>
            cases ht : env.transcribe bs with
            | error e =>
                simp [handle_audio_of_transcribe_error env store log a e bs ha hne hd ht,
                  isBotOrError]
            | ok t =>
                by_cases hb : isBlankTranscript t
                · simp [handle_audio_of_blank env store log a t bs ha hne hd ht hb,
                    isBotOrError]
                · rw [handle_audio_of_nonblank env store log a t bs ha hne hd ht
                    (by simpa using hb)]
                  simp [completed_turn, isBotOrError]

/-- Claim C5: on a transcript that is empty or whitespace-only the handler
emits one `bot_response` with `user_text` `"..."` and the fixed
could-not-understand `bot_text`, appends no metrics record, leaves the session
store — hence every Session history — unchanged, and its outcome does not
depend on the turn generator (replacing `get_llm_response` by any other
function gives the same outcome, so the generator is never consulted). -/
theorem C5_empty_speech (env : TurnEnv) (store : SessionStore)
    (log : List LatencyRecord) (a t : String) (bs : List Nat)
    (g : String → String → Except String String)
    (ha : env.audio = some a) (hne : a ≠ "")
    (hd : env.b64decode a = .ok bs) (ht : env.transcribe bs = .ok t)
    (hb : isBlankTranscript t = true) :
    (handle_audio_data env store log).events
        = [Event.botResponse "..." "（听不清）" none] ∧
    (handle_audio_data env store log).store = store ∧
    (handle_audio_data env store log).log = log ∧
    handle_audio_data { env with get_llm_response := g } store log
        = handle_audio_data env store log := by
  have h := handle_audio_of_blank env store log a t bs ha hne hd ht hb
  have h2 := handle_audio_of_blank { env with get_llm_response := g } store log a t bs
    ha hne hd ht hb
  exact ⟨by rw [h], by rw [h], by rw [h], by rw [h, h2]⟩

/-- Witness for C5: the concrete environment `envSilence`, whose transcription
returns the empty string. -/
theorem C5_empty_speech_witness :
    (handle_audio_data envSilence [] []).events
        = [Event.botResponse "..." "（听不清）" none] ∧
    (handle_audio_data envSilence [] []).store = [] ∧
    (handle_audio_data envSilence [] []).log = [] ∧
    handle_audio_data
        { envSilence with get_llm_response := fun _ _ => Except.error "down" } [] []
        = handle_audio_data envSilence [] [] :=
  C5_empty_speech envSilence [] [] "QQ==" "" [65] (fun _ _ => Except.error "down")
    rfl (by decide) rfl rfl rfl

/-- Counterexample to C6 as stated: at `envBase` with a metrics writer that
raises (the `open`/`write` of stats.jsonl at line 163, e.g. disk full) the
turn fails with an uncaught exception — a FAILED turn in the claim's terms —
and an `error` event is emitted with no latency record, but the Session HAS
been mutated by that turn: the history append at line 148 ran before the
write, so the store ends up holding the appended (transcript, reply) pair. -/
theorem C6_counterexample :
    (handle_audio_data_io envBase statsWriterFails [] []).events
        = [Event.error "No space left on device"] ∧
    (handle_audio_data_io envBase statsWriterFails [] []).log = [] ∧
    lookupSession "c1" (handle_audio_data_io envBase statsWriterFails [] []).store
        = some ⟨"c1", [("你好", "好的")]⟩ := by
  rw [handle_audio_io_of_nonblank envBase statsWriterFails [] [] "QQ==" "你好" [65]
    rfl (by decide) rfl rfl (by decide)]
  refine ⟨?_, ?_, ?_⟩ <;>
    simp [completed_turn_io, statsWriterFails, envBase, get_or_create_session,
      lookupSession, updateSession, Session.add_to_history]

/-- Claim C6 (amended): a turn that fails at the base64 decode or at the
transcription gateway emits exactly one `error` event carrying the
exception's message, leaves the session store unchanged, and appends nothing
to the metrics log; a turn that fails with an uncaught exception at the
metrics write likewise emits an `error` event and appends no latency record,
but the Session has already been mutated by that turn, the history append
preceding the write. -/
theorem C6_failed_turn (env : TurnEnv) (ws : LatencyRecord → Except String Unit)
    (store : SessionStore) (log : List LatencyRecord) (a e : String)
    (ha : env.audio = some a) (hne : a ≠ "")
    (herr : env.b64decode a = Except.error e ∨
        (∃ bs, env.b64decode a = Except.ok bs ∧ env.transcribe bs = Except.error e) ∨
        (∃ bs t, env.b64decode a = Except.ok bs ∧ env.transcribe bs = Except.ok t ∧
          isBlankTranscript t = false ∧ ∀ rec0, ws rec0 = Except.error e)) :
    (handle_audio_data_io env ws store log).events = [Event.error e] ∧
    (handle_audio_data_io env ws store log).log = log ∧
    ((env.b64decode a = Except.error e ∨
        ∃ bs, env.b64decode a = Except.ok bs ∧ env.transcribe bs = Except.error e) →
      (handle_audio_data_io env ws store log).store = store) := by
  rcases herr with hd | ⟨bs, hd, ht⟩ | ⟨bs, t, hd, ht, hb, hw⟩
  · rw [handle_audio_io_of_decode_error env ws store log a e ha hne hd]
    exact ⟨rfl, rfl, fun _ => rfl⟩
  · rw [handle_audio_io_of_transcribe_error env ws store log a e bs ha hne hd ht]
    exact ⟨rfl, rfl, fun _ => rfl⟩
  · rw [handle_audio_io_of_nonblank env ws store log a t bs ha hne hd ht hb]
    have h := completed_turn_io_of_write_error env ws store log t e hw
    refine ⟨h.1, h.2, ?_⟩
    rintro (hd' | ⟨bs', hd', ht'⟩)
    · simp [hd] at hd'
    · rw [hd] at hd'
      injection hd' with hbs
      subst hbs
      simp [ht] at ht'

/-- Witness for C6 (amended): `envDecodeFails` exercises the early-failure
case (error event, empty store untouched, no record) and `envBase` with
`statsWriterFails` exercises the metrics-write failure (error event, no
record). -/
theorem C6_failed_turn_witness :
    (handle_audio_data_io envDecodeFails statsWriterOk [] []).events
        = [Event.error "Invalid base64-encoded string"] ∧
    (handle_audio_data_io envDecodeFails statsWriterOk [] []).store = [] ∧
    (handle_audio_data_io envBase statsWriterFails [] []).events
        = [Event.error "No space left on device"] ∧
    (handle_audio_data_io envBase statsWriterFails [] []).log = [] := by
  have h1 := C6_failed_turn envDecodeFails statsWriterOk [] [] "QQ=="
    "Invalid base64-encoded string" rfl (by decide) (Or.inl rfl)
  have h2 := C6_failed_turn envBase statsWriterFails [] [] "QQ=="
    "No space left on device" rfl (by decide)
    (Or.inr (Or.inr ⟨[65], "你好", rfl, rfl, by decide, fun _ => rfl⟩))
  exact ⟨h1.1, h1.2.2 (Or.inl rfl), h2.1, h2.2.1⟩

/-- Claim C10: the session store is consulted only after transcription yields
non-empty text — an `audio_data` event whose `audio` field is absent or empty,
or whose transcript is empty or whitespace-only, returns before
`get_or_create_session` is called and leaves the session store unchanged. -/
theorem C10_store_untouched (env : TurnEnv) (store : SessionStore)
    (log : List LatencyRecord)
    (h : audioFalsy env = true ∨
        ∃ a bs t, env.audio = some a ∧ a ≠ "" ∧ env.b64decode a = Except.ok bs ∧
          env.transcribe bs = Except.ok t ∧ isBlankTranscript t = true) :
    (handle_audio_data env store log).store = store := by
  rcases h with hf | ⟨a, bs, t, ha, hne, hd, ht, hb⟩
  · cases ha : env.audio with
    | none => rw [handle_audio_of_none env store log ha]
    | some a =>
        have hae : a = "" := by simpa [audioFalsy, ha] using hf
        subst hae
        rw [handle_audio_of_empty env store log ha]
  · rw [handle_audio_of_blank env store log a t bs ha hne hd ht hb]

/-- Witness for C10: the store is untouched both for `envNoAudio` (absent
`audio` field, store holding one session) and for `envSilence` (blank
transcript, empty store). -/
theorem C10_store_untouched_witness :
    (handle_audio_data envNoAudio [("c1", sessionOne)] []).store = [("c1", sessionOne)] ∧
    (handle_audio_data envSilence [] []).store = [] :=
  ⟨C10_store_untouched envNoAudio [("c1", sessionOne)] [] (Or.inl rfl),
   C10_store_untouched envSilence [] []
     (Or.inr ⟨"QQ==", [65], "", rfl, by decide, rfl, rfl, rfl⟩)⟩

/-- Claim C2 (amended): for every non-empty audio input whose transcription
returns non-empty text and whose generation succeeds, exactly one
`bot_response` is emitted containing the transcript as `user_text` and the
generator's reply as `bot_text` (the code does not enforce that the reply is
non-empty), and exactly one metrics record is appended whose `asr` and `llm`
fields are non-negative and whose `total` field is at least
`asr + llm - 0.015`: each stored field is rounded to two decimal places, which
can lower `total` relative to `asr + llm` by up to 3/200 ms. -/
theorem C2_completed_metrics (env : TurnEnv) (store : SessionStore)
    (log : List LatencyRecord) (a t r : String) (bs : List Nat)
    (ha : env.audio = some a) (hne : a ≠ "")
    (hd : env.b64decode a = .ok bs) (ht : env.transcribe bs = .ok t)
    (hb : isBlankTranscript t = false)
    (hr : env.get_llm_response t
        (env.build_booking_system_prompt (get_or_create_session env.sid store).1)
      = .ok r)
    (h01 : env.t0 ≤ env.t1) (h12 : env.t1 ≤ env.t2) (h23 : env.t2 ≤ env.t3)
    (h34 : env.t3 ≤ env.t4) (h45 : env.t4 ≤ env.t5) :
    ∃ rec0 : LatencyRecord,
      (handle_audio_data env store log).events
          = [Event.botResponse t r (some (pytrunc ((env.t5 - env.t0) * 1000)))] ∧
      (handle_audio_data env store log).log = log ++ [rec0] ∧
      0 ≤ rec0.asr ∧ 0 ≤ rec0.llm ∧ rec0.asr + rec0.llm - 3 / 200 ≤ rec0.total := by
  rw [handle_audio_of_nonblank env store log a t bs ha hne hd ht hb,
      completed_turn_of_gen_ok env store log t r hr]
  refine ⟨_, rfl, rfl, ?_, ?_, ?_⟩
  · exact round2_nonneg _ (by linarith)
  · exact round2_nonneg _ (by linarith)
  · have hA := round2_le ((env.t2 - env.t1) * 1000)
    have hL := round2_le ((env.t4 - env.t3) * 1000)
    have hT := round2_ge ((env.t5 - env.t0) * 1000)
    have hsum : (env.t2 - env.t1) * 1000 + (env.t4 - env.t3) * 1000
        ≤ (env.t5 - env.t0) * 1000 := by linarith
    linarith

/-- Witness for C2 (amended): the concrete environment `envBase` (10 ms of
transcription, 10 ms of generation, 30 ms in total). -/
theorem C2_completed_metrics_witness :
    ∃ rec0 : LatencyRecord,
      (handle_audio_data envBase [] []).events
          = [Event.botResponse "你好" "好的"
              (some (pytrunc ((envBase.t5 - envBase.t0) * 1000)))] ∧
      (handle_audio_data envBase [] []).log = [] ++ [rec0] ∧
      0 ≤ rec0.asr ∧ 0 ≤ rec0.llm ∧ rec0.asr + rec0.llm - 3 / 200 ≤ rec0.total :=
  C2_completed_metrics envBase [] [] "QQ==" "你好" "好的" [65]
    rfl (by decide) rfl rfl (by decide) rfl
    (by norm_num [envBase]) (by norm_num [envBase]) (by norm_num [envBase])
    (by norm_num [envBase]) (by norm_num [envBase])

/-- Counterexample to C2 as stated: at `envEmptyReply` the audio is non-empty,
transcription returns the non-empty text "你好" and generation succeeds, yet
the emitted `bot_text` is the empty string, and the single appended metrics
record has `total` = 0.01 while `asr + llm` = 0.02, because each field is
rounded to two decimal places before being stored: the turn took 0.012 ms of
which transcription and generation each took 0.006 ms. -/
theorem C2_counterexample :
    (handle_audio_data envEmptyReply [] []).events
        = [Event.botResponse "你好" "" (some 0)] ∧
    (handle_audio_data envEmptyReply [] []).log
        = [⟨1 / 100, 0, 0, 0, 1 / 100, 1 / 100, "2026-01-01 00:00:00"⟩] ∧
    ¬ ((1 : ℚ) / 100 + 1 / 100 ≤ 1 / 100) := by
  rw [handle_audio_of_nonblank envEmptyReply [] [] "QQ==" "你好" [65]
        rfl (by decide) rfl rfl (by decide),
      completed_turn_of_gen_ok envEmptyReply [] [] "你好" "" rfl]
  refine ⟨?_, ?_, by norm_num⟩
  · have : pytrunc ((envEmptyReply.t5 - envEmptyReply.t0) * 1000) = 0 := by
      norm_num [pytrunc, envEmptyReply, envBase]
    rw [this]
  · have h5 : round2 ((envEmptyReply.t5 - envEmptyReply.t0) * 1000) = 1 / 100 := by
      norm_num [round2, round_eq, envEmptyReply, envBase]
    have h21 : round2 ((envEmptyReply.t2 - envEmptyReply.t1) * 1000) = 1 / 100 := by
      norm_num [round2, round_eq, envEmptyReply, envBase]
    have h43 : round2 ((envEmptyReply.t4 - envEmptyReply.t3) * 1000) = 1 / 100 := by
      norm_num [round2, round_eq, envEmptyReply, envBase]
    rw [h5, h21, h43]
    rfl

/-- Claim C4: when transcription succeeded with non-empty text but the
generation gateway raises, the turn still completes: the emitted
`bot_response` has `bot_text` equal to the fixed fallback "系统繁忙。"
("system busy"), the pair (transcript, fallback) is appended to the Session's
history, and no `error` event is emitted to the client. -/
theorem C4_generation_fallback (env : TurnEnv) (store : SessionStore)
    (log : List LatencyRecord) (a t e : String) (bs : List Nat)
    (ha : env.audio = some a) (hne : a ≠ "")
    (hd : env.b64decode a = .ok bs) (ht : env.transcribe bs = .ok t)
    (hb : isBlankTranscript t = false)
    (hr : env.get_llm_response t
        (env.build_booking_system_prompt (get_or_create_session env.sid store).1)
      = .error e) :
    (handle_audio_data env store log).events
        = [Event.botResponse t "系统繁忙。"
            (some (pytrunc ((env.t5 - env.t0) * 1000)))] ∧
    (∃ s1 : Session,
      lookupSession env.sid (handle_audio_data env store log).store = some s1 ∧
      s1.history
        = (get_or_create_session env.sid store).1.history ++ [(t, "系统繁忙。")]) ∧
    (handle_audio_data env store log).events.all (fun ev => ! isErrorEvent ev) = true := by
  rw [handle_audio_of_nonblank env store log a t bs ha hne hd ht hb,
      completed_turn_of_gen_error env store log t e hr]
  refine ⟨rfl, ⟨(get_or_create_session env.sid store).1.add_to_history t "系统繁忙。",
    ?_, rfl⟩, by simp [isErrorEvent]⟩
  exact lookup_update_get_or_create env.sid _ _

/-- Witness for C4: the concrete environment `envGenFails`, whose generation
gateway raises a timeout. -/
theorem C4_generation_fallback_witness :
    (handle_audio_data envGenFails [] []).events
        = [Event.botResponse "你好" "系统繁忙。"
            (some (pytrunc ((envGenFails.t5 - envGenFails.t0) * 1000)))] ∧
    (∃ s1 : Session,
      lookupSession envGenFails.sid (handle_audio_data envGenFails [] []).store
          = some s1 ∧
      s1.history
        = (get_or_create_session envGenFails.sid []).1.history
            ++ [("你好", "系统繁忙。")]) ∧
    (handle_audio_data envGenFails [] []).events.all (fun ev => ! isErrorEvent ev)
        = true :=
  C4_generation_fallback envGenFails [] [] "QQ==" "你好" "timeout" [65]
    rfl (by decide) rfl rfl (by decide) rfl

/-- Counterexample to C3 as stated: after the `disconnect` event for "c1" the
Session for "c1" is still registered in the store — the disconnect handler
only logs — and a turn arriving for a connection id with no Session (the
post-eviction situation the claim describes) does not fail with a
SessionNotFound error: it is answered with a `bot_response` and a fresh
Session entry is created in the store. -/
theorem C3_counterexample :
    handle_disconnect "c1" [("c1", sessionOne)] = [("c1", sessionOne)] ∧
    lookupSession "c1" (handle_disconnect "c1" [("c1", sessionOne)]) = some sessionOne ∧
    (handle_audio_data envBase [] []).events
        = [Event.botResponse "你好" "好的" (some 30)] ∧
    lookupSession "c1" (handle_audio_data envBase [] []).store
        = some ⟨"c1", [("你好", "好的")]⟩ := by
  have h := completed_store_fresh envBase [] [] "QQ==" "你好" "好的" [65]
    rfl rfl (by decide) rfl rfl (by decide) (fun _ => rfl)
  refine ⟨rfl, by decide, ?_, ?_⟩
  · rw [h.2]
    have : pytrunc ((envBase.t5 - envBase.t0) * 1000) = 30 := by
      norm_num [pytrunc, envBase]
    rw [this]
  · rw [h.1]
    decide

/-- Claim C3 (amended): the `disconnect` handler does not evict the Session —
it only logs, leaving the Session Store unchanged — and a turn subsequently
arriving for a connection id that has no Session does not fail with a
SessionNotFound condition: `get_or_create_session` creates and registers a
fresh Session entry and the turn completes with a `bot_response`. -/
theorem C3_no_eviction (sid : String) (store : SessionStore) (env : TurnEnv)
    (log : List LatencyRecord) (a t r : String) (bs : List Nat)
    (hnone : lookupSession env.sid (handle_disconnect sid store) = none)
    (ha : env.audio = some a) (hne : a ≠ "")
    (hd : env.b64decode a = .ok bs) (ht : env.transcribe bs = .ok t)
    (hb : isBlankTranscript t = false)
    (hr : ∀ p, env.get_llm_response t p = .ok r) :
    handle_disconnect sid store = store ∧
    (handle_audio_data env (handle_disconnect sid store) log).store
        = handle_disconnect sid store ++ [(env.sid, ⟨env.sid, [(t, r)]⟩)] ∧
    (handle_audio_data env (handle_disconnect sid store) log).events
        = [Event.botResponse t r (some (pytrunc ((env.t5 - env.t0) * 1000)))] := by
  have h := completed_store_fresh env (handle_disconnect sid store) log a t r bs
    hnone ha hne hd ht hb hr
  exact ⟨rfl, h.1, h.2⟩

/-- Witness for C3 (amended): disconnect of "c2" leaves the one-session store
as it is, and the follow-up turn `envBase` for the absent id "c1" creates a
fresh entry. -/
theorem C3_no_eviction_witness :
    handle_disconnect "c2" [("c2", sessionOne)] = [("c2", sessionOne)] ∧
    (handle_audio_data envBase (handle_disconnect "c2" [("c2", sessionOne)]) []).store
        = handle_disconnect "c2" [("c2", sessionOne)]
            ++ [(envBase.sid, ⟨envBase.sid, [("你好", "好的")]⟩)] ∧
    (handle_audio_data envBase (handle_disconnect "c2" [("c2", sessionOne)]) []).events
        = [Event.botResponse "你好" "好的"
            (some (pytrunc ((envBase.t5 - envBase.t0) * 1000)))] :=
  C3_no_eviction "c2" [("c2", sessionOne)] envBase [] "QQ==" "你好" "好的" [65]
    (by decide) rfl (by decide) rfl rfl (by decide) (fun _ => rfl)

/-- Counterexample to C7 as stated: at `envGatewayDown` the turn enters the
transcription stage (audio present and decoded) and the gateway call runs for
5 ms and then raises; the `asr` latency stage is never recorded — the
handler-local latency info still holds the initial 0, not the elapsed 5 ms,
and no metrics record is written — so the stage is not recorded "regardless
of outcome". -/
theorem C7_counterexample :
    (handle_audio_data envGatewayDown [] []).latency_info.asr_transcription = 0 ∧
    (envGatewayDown.t2 - envGatewayDown.t1) * 1000 = 5 ∧
    (handle_audio_data envGatewayDown [] []).log = [] ∧
    (handle_audio_data envGatewayDown [] []).events = [Event.error "gateway down"] := by
  rw [handle_audio_of_transcribe_error envGatewayDown [] [] "QQ==" "gateway down" [65]
    rfl (by decide) rfl rfl]
  refine ⟨rfl, ?_, rfl, rfl⟩
  norm_num [envGatewayDown, envBase]

/-- Claim C7 (amended): for a turn that enters the transcription stage, the
`asr` latency stage is recorded only when the transcription call returns
(whether the transcript is blank or not); if the gateway raises, control jumps
to the error path before line 126 runs, the stage retains its initial 0, and
no metrics record is written. -/
theorem C7_asr_recording (env : TurnEnv) (store : SessionStore)
    (log : List LatencyRecord) (a : String) (bs : List Nat)
    (ha : env.audio = some a) (hne : a ≠ "")
    (hd : env.b64decode a = .ok bs) :
    ((∃ t, env.transcribe bs = .ok t) →
        (handle_audio_data env store log).latency_info.asr_transcription
          = (env.t2 - env.t1) * 1000) ∧
    ((∃ e, env.transcribe bs = .error e) →
        (handle_audio_data env store log).latency_info.asr_transcription = 0 ∧
        (handle_audio_data env store log).log = log) := by
  constructor
  · rintro ⟨t, ht⟩
    by_cases hb : isBlankTranscript t
    · rw [handle_audio_of_blank env store log a t bs ha hne hd ht hb]
    · rw [handle_audio_of_nonblank env store log a t bs ha hne hd ht (by simpa using hb)]
      cases hr : env.get_llm_response t
          (env.build_booking_system_prompt (get_or_create_session env.sid store).1) with
      | ok r => rw [completed_turn_of_gen_ok env store log t r hr]
      | error e => rw [completed_turn_of_gen_error env store log t e hr]
  · rintro ⟨e, ht⟩
    rw [handle_audio_of_transcribe_error env store log a e bs ha hne hd ht]
    exact ⟨rfl, rfl⟩

/-- Witness for C7 (amended): `envBase` (the gateway returns) has the 10 ms
asr stage recorded; `envGatewayDown` (the gateway raises) leaves it at 0 with
no metrics record. -/
theorem C7_asr_recording_witness :
    (handle_audio_data envBase [] []).latency_info.asr_transcription
        = (envBase.t2 - envBase.t1) * 1000 ∧
    (handle_audio_data envGatewayDown [] []).latency_info.asr_transcription = 0 ∧
    (handle_audio_data envGatewayDown [] []).log = [] :=
  ⟨(C7_asr_recording envBase [] [] "QQ==" [65] rfl (by decide) rfl).1 ⟨"你好", rfl⟩,
   (C7_asr_recording envGatewayDown [] [] "QQ==" [65] rfl (by decide) rfl).2
     ⟨"gateway down", rfl⟩⟩

/-- Counterexample to C8 as stated: the `bot_response` emitted on the
empty-speech path (line 131 of app-ch.py) carries no `latency_ms` field at
all, so not every `bot_response` contains a `latency_ms.backend` integer. -/
theorem C8_counterexample :
    (handle_audio_data envSilence [] []).events
        = [Event.botResponse "..." "（听不清）" none] ∧
    ¬ (handle_audio_data envSilence [] []).events.all
        (fun ev =>
          match ev with
          | Event.botResponse _ _ backend => backend.isSome
          | _ => true) = true := by
  rw [handle_audio_of_blank envSilence [] [] "QQ==" "" [65] rfl (by decide) rfl rfl rfl]
  exact ⟨rfl, by decide⟩

/-- Claim C8 (amended): every outbound `bot_response` carries `user_text` and
`bot_text` string fields; the `bot_response` of a completed turn additionally
carries `latency_ms` with an integer `backend` field, but the `bot_response`
emitted on the empty-speech path carries no `latency_ms` at all. -/
theorem C8_bot_response_fields (env : TurnEnv) (store : SessionStore)
    (log : List LatencyRecord) (a t : String) (bs : List Nat)
    (ha : env.audio = some a) (hne : a ≠ "")
    (hd : env.b64decode a = .ok bs) (ht : env.transcribe bs = .ok t) :
    (isBlankTranscript t = true →
        (handle_audio_data env store log).events
          = [Event.botResponse "..." "（听不清）" none]) ∧
    (isBlankTranscript t = false →
        ∃ b, (handle_audio_data env store log).events
          = [Event.botResponse t b (some (pytrunc ((env.t5 - env.t0) * 1000)))]) := by
  constructor
  · intro hb
    rw [handle_audio_of_blank env store log a t bs ha hne hd ht hb]
  · intro hb
    rw [handle_audio_of_nonblank env store log a t bs ha hne hd ht hb]
    cases hr : env.get_llm_response t
        (env.build_booking_system_prompt (get_or_create_session env.sid store).1) with
    | ok r => exact ⟨r, by rw [completed_turn_of_gen_ok env store log t r hr]⟩
    | error e => exact ⟨"系统繁忙。", by rw [completed_turn_of_gen_error env store log t e hr]⟩

/-- Witness for C8 (amended): `envSilence` gives the empty-speech response
without `latency_ms`; `envBase` gives a completed response with an integer
backend latency. -/
theorem C8_bot_response_fields_witness :
    (handle_audio_data envSilence [] []).events
        = [Event.botResponse "..." "（听不清）" none] ∧
    ∃ b, (handle_audio_data envBase [] []).events
        = [Event.botResponse "你好" b
            (some (pytrunc ((envBase.t5 - envBase.t0) * 1000)))] :=
  ⟨(C8_bot_response_fields envSilence [] [] "QQ==" "" [65] rfl (by decide) rfl rfl).1 rfl,
   (C8_bot_response_fields envBase [] [] "QQ==" "你好" [65] rfl (by decide) rfl rfl).2
     (by decide)⟩

/-- Claim C9: Session history is append-only in call order — after two
consecutive completed turns on the same (initially fresh) connection, the
Session's history has exactly the two (user_utterance, assistant_reply) pairs
in the order the turns were processed. -/
theorem C9_history_order (env1 env2 : TurnEnv) (store : SessionStore)
    (log : List LatencyRecord) (a1 a2 t1 t2 r1 r2 : String) (bs1 bs2 : List Nat)
    (hsid : env2.sid = env1.sid)
    (hnone : lookupSession env1.sid store = none)
    (ha1 : env1.audio = some a1) (hne1 : a1 ≠ "")
    (hd1 : env1.b64decode a1 = .ok bs1) (ht1 : env1.transcribe bs1 = .ok t1)
    (hb1 : isBlankTranscript t1 = false)
    (hr1 : ∀ p, env1.get_llm_response t1 p = .ok r1)
    (ha2 : env2.audio = some a2) (hne2 : a2 ≠ "")
    (hd2 : env2.b64decode a2 = .ok bs2) (ht2 : env2.transcribe bs2 = .ok t2)
    (hb2 : isBlankTranscript t2 = false)
    (hr2 : ∀ p, env2.get_llm_response t2 p = .ok r2) :
    lookupSession env1.sid
        (handle_audio_data env2 (handle_audio_data env1 store log).store
          (handle_audio_data env1 store log).log).store
      = some ⟨env1.sid, [(t1, r1), (t2, r2)]⟩ := by
  have h1 := (completed_store_fresh env1 store log a1 t1 r1 bs1
    hnone ha1 hne1 hd1 ht1 hb1 hr1).1
  rw [h1, ← hsid]
  have hnone2 : lookupSession env2.sid store = none := by rw [hsid]; exact hnone
  rw [completed_store_existing env2 store ⟨env2.sid, [(t1, r1)]⟩ _ a2 t2 r2 bs2
    hnone2 ha2 hne2 hd2 ht2 hb2 hr2]
  simpa [Session.add_to_history] using
    lookup_append_self env2.sid ⟨env2.sid, [(t1, r1), (t2, r2)]⟩ store hnone2

/-- Witness for C9: the turns `envBase` ("你好" → "好的") and `envTurn2`
("再见" → "再见！") on the same fresh connection "c1". -/
theorem C9_history_order_witness :
    lookupSession envBase.sid
        (handle_audio_data envTurn2 (handle_audio_data envBase [] []).store
          (handle_audio_data envBase [] []).log).store
      = some ⟨envBase.sid, [("你好", "好的"), ("再见", "再见！")]⟩ :=
  C9_history_order envBase envTurn2 [] [] "QQ==" "QQ==" "你好" "再见" "好的" "再见！"
    [65] [65] rfl rfl rfl (by decide) rfl rfl (by decide) (fun _ => rfl)
    rfl (by decide) rfl rfl (by decide) (fun _ => rfl)

end AppCh
